import Mathlib

/-!
Verification development for the TreeTagger Python wrapper (treetagger.py).

The module wraps an external part-of-speech tagging executable: it validates a
language name at construction time, locates the executable, and per `tag` call
normalizes the input, runs the process, and lazily decodes its tab-separated
output into per-token records.  We shallowly embed the pipeline: the external
process is a deterministic function from an argument vector and a standard
input payload to captured standard output, standard error and an exit status;
byte strings are modelled as their UTF-8 decoded text.
-/

namespace TreeTaggerSpec

/-- Characters stripped by the Python method str.strip with no argument
(ASCII and Latin-1 whitespace; further Unicode space characters that Python
also strips do not occur in any input considered here). -/
def pyIsSpace (c : Char) : Bool :=
  c == ' ' || c == '\t' || c == '\n' || c == '\r' || c == '\x0b' || c == '\x0c'
    || c == '\x1c' || c == '\x1d' || c == '\x1e' || c == '\x1f'
    || c == '\x85' || c == '\xa0'

/-- Model of the Python method str.strip with no argument: remove trailing
whitespace, then leading whitespace. -/
def stripList (cs : List Char) : List Char :=
  ((cs.reverse.dropWhile pyIsSpace).reverse).dropWhile pyIsSpace

/-- Model of the Python expression s.strip() on a string. -/
def pyStrip (s : String) : String :=
  String.mk (stripList s.data)

/-- Model of the Python method str.split with an explicit one-character
separator: every occurrence of the separator starts a new field, consecutive
separators give empty fields, and the empty string splits into one empty
field. -/
def splitOnChar (sep : Char) : List Char → List (List Char)
  | [] => [[]]
  | c :: rest =>
    if c = sep then [] :: splitOnChar sep rest
    else
      match splitOnChar sep rest with
      | [] => [[c]]
      | h :: t => (c :: h) :: t

/-- Universal-newlines translation performed by a Python text-mode file opened
with newline=None (the default used for the temporary output file): the
terminators CR LF and lone CR are both read as LF. -/
def univNL : List Char → List Char
  | [] => []
  | '\r' :: '\n' :: rest => '\n' :: univNL rest
  | '\r' :: rest => '\n' :: univNL rest
  | c :: rest => c :: univNL rest

/-- Splitting a translated character stream the way iterating a Python text
file yields lines: each line keeps its trailing LF, a final segment without a
terminator is still a line, and exhausted content yields no further line
(in particular a trailing LF does not create an extra empty line). -/
def splitLinesKeep : List Char → List (List Char)
  | [] => []
  | c :: rest =>
    if c = '\n' then ['\n'] :: splitLinesKeep rest
    else
      match splitLinesKeep rest with
      | [] => [[c]]
      | h :: t => (c :: h) :: t

/-- The lines obtained by iterating the temporary output file after seek(0):
universal-newlines translation followed by line iteration. -/
def pyFileLines (s : String) : List String :=
  (splitLinesKeep (univNL s.data)).map String.mk

/-- Decoding of one output line, exactly as in the source:
tagged_line.strip().split(backslash-t). -/
def decodeLine (line : String) : List String :=
  (splitOnChar '\t' (stripList line.data)).map String.mk

/-- Result of running the external process once: captured standard output
(written to the temporary file), captured standard error (read from the pipe),
and the exit status. -/
structure ProcResult where
  stdout : String
  stderr : String
  returncode : Int
  deriving DecidableEq, Repr

/-- The three shapes of argument accepted by tag: a Python list of token
strings, a plain string of text, or a file-like object exposing read, modelled
by the content the process will read from it. -/
inductive TagInput where
  | tokens (sentences : List String)
  | text (s : String)
  | stream (content : String)
  deriving DecidableEq, Repr

/-- The text the external process receives on its standard input: a list is
joined with a newline between elements, a string is passed as is (then encoded
to UTF-8 bytes), and a file-like object is connected directly so the process
reads its content. -/
def normalizeInput : TagInput → String
  | .tokens sentences => String.intercalate "\n" sentences
  | .text s => s
  | .stream content => content

/-- The state a constructed TreeTagger instance carries into tag calls:
the configured abbreviation-list path, the resolved binary path when
find_binary succeeded (the attribute is simply never set when it failed,
modelled by none), and whether the could-not-find warning was printed. -/
structure TreeTagger where
  _abbr_list : Option String
  _treetagger_bin : Option String
  warned : Bool
  deriving DecidableEq, Repr

/-- The argument vector handed to Popen: the binary alone when no
abbreviation list was configured, otherwise the binary followed by -a and the
abbreviation-list path. -/
def argvOf (bin : String) (abbr : Option String) : List String :=
  match abbr with
  | none => [bin]
  | some a => [bin, "-a", a]

/-- Observable outcome of consuming the generator returned by tag:
an AttributeError when the binary attribute was never set, an OSError raised
after printing the captured standard error when the exit status is non-zero
(stderrPrinted is the captured standard-error text passed to print; message is
the text the raised OSError carries), or the full list of yielded records. -/
inductive TagResult where
  | attrError
  | failure (stderrPrinted : String) (message : String)
  | ok (records : List (List String))
  deriving DecidableEq, Repr

/-- The tag method, with the external process supplied as a deterministic
function proc from the argument vector and the standard-input text to a
ProcResult.  Following the source: normalize the input, build the argument
vector, run the process and wait; on non-zero exit status print the captured
standard error and raise OSError with a fixed message; on zero exit status
seek to the start of the temporary output file and yield one decoded record
per line. -/
def tag (proc : List String → String → ProcResult) (self : TreeTagger)
    (sentences : TagInput) : TagResult :=
  let _input := normalizeInput sentences
  match self._treetagger_bin with
  | none => TagResult.attrError
  | some bin =>
    let r := proc (argvOf bin self._abbr_list) _input
    if r.returncode ≠ 0 then
      TagResult.failure r.stderr "TreeTagger command failed!"
    else
      TagResult.ok ((pyFileLines r.stdout).map decodeLine)

/-- The fixed language enumeration from the source. -/
def _treetagger_languages : List String :=
  ["bulgarian", "dutch", "english", "estonian", "finnish", "french",
   "galician", "german", "italian", "polish", "portuguese",
   "portuguese-finegrained", "russian", "slovak", "slovak2", "spanish"]

/-- The platform distinction the constructor makes (sys.platform equal to
win32 or anything else). -/
inductive Platform where
  | win32
  | other
  deriving DecidableEq, Repr

/-- Derivation of the binary name from the platform and the language. -/
def binName (p : Platform) (language : String) : String :=
  match p with
  | .win32 => "tag-" ++ language
  | .other => "tree-tagger-" ++ language

/-- The constructor, with the binary locator supplied as a function
find_binary from the binary name to an optional resolved path (none models
the LookupError path of nltk find_binary).  An unsupported language raises
LookupError with the fixed message; a locator failure only prints a warning
and leaves the binary attribute unset. -/
def TreeTagger.init (platform : Platform) (find_binary : String → Option String)
    (language : String) (abbreviation_list : Option String) :
    Except String TreeTagger :=
  if language ∈ _treetagger_languages then
    match find_binary (binName platform language) with
    | some path =>
      Except.ok { _abbr_list := abbreviation_list, _treetagger_bin := some path,
                  warned := false }
    | none =>
      Except.ok { _abbr_list := abbreviation_list, _treetagger_bin := none,
                  warned := true }
  else
    Except.error "Language not in language list!"

/-- Removal of one trailing line terminator (LF, CR LF or CR), stated on the
reversed character list.  This is the spec wording for the decode step, used
to compare the decoder of the source against the words of the spec. -/
def dropLTrev (xs : List Char) : List Char :=
  match xs with
  | [] => []
  | a :: rest =>
    if a = '\n' then
      match rest with
      | [] => rest
      | b :: rest2 => if b = '\r' then rest2 else rest
    else if a = '\r' then rest
    else a :: rest

/-- A line with its trailing line terminator removed. -/
def dropLineTermStr (line : String) : String :=
  String.mk (dropLTrev line.data.reverse).reverse

/-- Decoder written from the words of the spec: trim the trailing line
terminator, trim surrounding whitespace, split on the tab character. -/
def specDecodeLine (line : String) : List String :=
  (splitOnChar '\t' (stripList (dropLTrev line.data.reverse).reverse)).map String.mk

/-- Count written from the words of the spec: the number of non-empty output
lines, a line being non-empty when its content without the terminator is
non-empty. -/
def countNonEmptyOutputLines (s : String) : Nat :=
  ((pyFileLines s).filter (fun l => dropLineTermStr l ≠ "")).length

/-- A tagger instance as built for the English language with a successfully
resolved binary, used as a concrete fixture. -/
def instEnglish : TreeTagger :=
  { _abbr_list := none, _treetagger_bin := some "tree-tagger-english",
    warned := false }

/-- A process that ignores its input, writes boom to standard error and exits
with status 1. -/
def procBoom : List String → String → ProcResult :=
  fun _ _ => { stdout := "", stderr := "boom", returncode := 1 }

/-- A process that writes a single blank line to standard output and exits
with status 0. -/
def procBlankLine : List String → String → ProcResult :=
  fun _ _ => { stdout := "\n", stderr := "", returncode := 0 }

/-- A process that writes one canonical three-field line and exits with
status 0. -/
def procSwallow : List String → String → ProcResult :=
  fun _ _ => { stdout := "What\tWP\tWhat\n", stderr := "", returncode := 0 }

/-- A process that behaves like procSwallow exactly on the one argument
vector and payload the pipeline actually uses, and differs everywhere else. -/
def procAgree : List String → String → ProcResult :=
  fun args s =>
    if args = ["tree-tagger-english"] ∧ s = "What" then
      { stdout := "What\tWP\tWhat\n", stderr := "", returncode := 0 }
    else
      { stdout := "", stderr := "different", returncode := 1 }

theorem dropWhile_dropLTrev (xs : List Char) :
    (dropLTrev xs).dropWhile pyIsSpace = xs.dropWhile pyIsSpace := by
  rcases xs with _ | ⟨a, rest⟩
  · rfl
  · by_cases ha : a = '\n'
    · subst ha
      rcases rest with _ | ⟨b, rest2⟩
      · rfl
      · by_cases hb : b = '\r'
        · subst hb; rfl
        · have h1 : dropLTrev ('\n' :: b :: rest2) = b :: rest2 := by
            simp [dropLTrev, hb]
          rw [h1]
          rfl
    · by_cases hr : a = '\r'
      · subst hr; rfl
      · have h1 : dropLTrev (a :: rest) = a :: rest := by
          simp [dropLTrev, ha, hr]
        rw [h1]

theorem stripList_dropLineTerm (cs : List Char) :
    stripList (dropLTrev cs.reverse).reverse = stripList cs := by
  unfold stripList
  rw [List.reverse_reverse, dropWhile_dropLTrev]

theorem decodeLine_eq_specDecodeLine (line : String) :
    decodeLine line = specDecodeLine line := by
  unfold decodeLine specDecodeLine
  rw [stripList_dropLineTerm]

theorem splitOnChar_ne_nil (sep : Char) (cs : List Char) :
    splitOnChar sep cs ≠ [] := by
  induction cs with
  | nil => simp [splitOnChar]
  | cons c rest ih =>
    unfold splitOnChar
    by_cases h : c = sep
    · simp [h]
    · rw [if_neg h]
      cases hs : splitOnChar sep rest <;> simp

theorem decodeLine_ne_nil (line : String) : decodeLine line ≠ [] := by
  unfold decodeLine
  intro h
  rw [List.map_eq_nil_iff] at h
  exact splitOnChar_ne_nil '\t' (stripList line.data) h

/-- Claim C1: for every call to tag where the external process exits with a
non-zero status, the call raises an error (OSError with the captured standard
error printed first) and zero Tagged Records are yielded to the caller before
that error is raised, so there are no partial results. -/
theorem C1_failure_no_partial_results
    (proc : List String → String → ProcResult) (self : TreeTagger)
    (inp : TagInput) (bin : String)
    (hbin : self._treetagger_bin = some bin)
    (hrc : (proc (argvOf bin self._abbr_list) (normalizeInput inp)).returncode ≠ 0) :
    tag proc self inp =
      TagResult.failure (proc (argvOf bin self._abbr_list) (normalizeInput inp)).stderr
        "TreeTagger command failed!" ∧
    ∀ recs, tag proc self inp ≠ TagResult.ok recs := by
  have htag : tag proc self inp =
      TagResult.failure (proc (argvOf bin self._abbr_list) (normalizeInput inp)).stderr
        "TreeTagger command failed!" := by
    simp only [tag, hbin]
    rw [if_pos hrc]
  refine ⟨htag, ?_⟩
  intro recs h
  rw [htag] at h
  exact TagResult.noConfusion h

/-- Claim C1 witness at a concrete failing process. -/
theorem C1_witness :
    instEnglish._treetagger_bin = some "tree-tagger-english" ∧
    (procBoom (argvOf "tree-tagger-english" instEnglish._abbr_list)
      (normalizeInput (TagInput.tokens ["x"]))).returncode ≠ 0 ∧
    (tag procBoom instEnglish (TagInput.tokens ["x"]) =
        TagResult.failure "boom" "TreeTagger command failed!" ∧
      ∀ recs, tag procBoom instEnglish (TagInput.tokens ["x"]) ≠ TagResult.ok recs) :=
  ⟨rfl, by decide,
    C1_failure_no_partial_results procBoom instEnglish (TagInput.tokens ["x"])
      "tree-tagger-english" rfl (by decide)⟩

/-- Claim C2 counterexample: with a process that writes boom to standard error
and exits with status 1, tag on a one-token list raises an OSError whose
message is the fixed text and not the captured standard error, so the raised
error does not carry the standard-error content. -/
theorem C2_counterexample :
    tag procBoom instEnglish (TagInput.tokens ["x"]) =
      TagResult.failure "boom" "TreeTagger command failed!" ∧
    "TreeTagger command failed!" ≠ "boom" := by
  exact ⟨by decide, by decide⟩

/-- Claim C2 (amended): on non-zero exit status the captured standard-error
text is passed verbatim to print (written to standard output) before the
error is raised, and the raised OSError carries only the fixed message
TreeTagger command failed!. -/
theorem C2_stderr_printed_not_carried
    (proc : List String → String → ProcResult) (self : TreeTagger)
    (inp : TagInput) (bin : String)
    (hbin : self._treetagger_bin = some bin)
    (hrc : (proc (argvOf bin self._abbr_list) (normalizeInput inp)).returncode ≠ 0) :
    ∃ printed msg, tag proc self inp = TagResult.failure printed msg ∧
      printed = (proc (argvOf bin self._abbr_list) (normalizeInput inp)).stderr ∧
      msg = "TreeTagger command failed!" := by
  refine ⟨_, _, ?_, rfl, rfl⟩
  simp only [tag, hbin]
  rw [if_pos hrc]

/-- Claim C2 witness at a concrete failing process. -/
theorem C2_witness :
    instEnglish._treetagger_bin = some "tree-tagger-english" ∧
    (procBoom (argvOf "tree-tagger-english" instEnglish._abbr_list)
      (normalizeInput (TagInput.tokens ["x"]))).returncode ≠ 0 ∧
    ∃ printed msg, tag procBoom instEnglish (TagInput.tokens ["x"]) =
        TagResult.failure printed msg ∧
      printed = "boom" ∧ msg = "TreeTagger command failed!" :=
  ⟨rfl, by decide,
    C2_stderr_printed_not_carried procBoom instEnglish (TagInput.tokens ["x"])
      "tree-tagger-english" rfl (by decide)⟩

/-- Claim C3 counterexample: a successful process whose output is a single
blank line makes tag yield one record (with exactly one empty field), while
the number of non-empty output lines is zero, so the record count is not the
non-empty-line count. -/
theorem C3_counterexample :
    tag procBlankLine instEnglish (TagInput.text "x") = TagResult.ok [[""]] ∧
    countNonEmptyOutputLines
      (procBlankLine (argvOf "tree-tagger-english" instEnglish._abbr_list)
        (normalizeInput (TagInput.text "x"))).stdout = 0 ∧
    ([[""]] : List (List String)).length ≠ 0 :=
  ⟨by decide, by decide, by decide⟩

/-- Claim C3 (amended): for every successful call the number of yielded
Tagged Records equals the total number of output lines of the external tool,
where line iteration yields each newline-terminated segment plus a final
unterminated segment, a trailing terminator adds no extra line, and blank
lines are counted. -/
theorem C3_record_count_eq_line_count
    (proc : List String → String → ProcResult) (self : TreeTagger)
    (inp : TagInput) (bin : String)
    (hbin : self._treetagger_bin = some bin)
    (hrc : (proc (argvOf bin self._abbr_list) (normalizeInput inp)).returncode = 0) :
    ∃ recs, tag proc self inp = TagResult.ok recs ∧
      recs.length =
        (pyFileLines (proc (argvOf bin self._abbr_list) (normalizeInput inp)).stdout).length := by
  have htag : tag proc self inp = TagResult.ok
      ((pyFileLines (proc (argvOf bin self._abbr_list) (normalizeInput inp)).stdout).map
        decodeLine) := by
    simp only [tag, hbin]
    rw [if_neg (not_not_intro hrc)]
  exact ⟨_, htag, by simp⟩

/-- Claim C3 witness at a concrete successful process. -/
theorem C3_witness :
    instEnglish._treetagger_bin = some "tree-tagger-english" ∧
    (procBlankLine (argvOf "tree-tagger-english" instEnglish._abbr_list)
      (normalizeInput (TagInput.text "x"))).returncode = 0 ∧
    ∃ recs, tag procBlankLine instEnglish (TagInput.text "x") = TagResult.ok recs ∧
      recs.length =
        (pyFileLines (procBlankLine (argvOf "tree-tagger-english" instEnglish._abbr_list)
          (normalizeInput (TagInput.text "x"))).stdout).length :=
  ⟨rfl, rfl,
    C3_record_count_eq_line_count procBlankLine instEnglish (TagInput.text "x")
      "tree-tagger-english" rfl rfl⟩

/-- Claim C4: for every list of token strings with no embedded line-break
characters, normalizing the list gives the same payload as normalizing the
single string obtained by joining it with a newline, hence tag on the list and
tag on the joined string hand the external process the same text (so, after
UTF-8 encoding, the same bytes) and yield the same result. -/
theorem C4_list_join_equivalence
    (L : List String) (proc : List String → String → ProcResult)
    (self : TreeTagger)
    (_h : ∀ t ∈ L, ∀ c ∈ t.data, c ≠ '\n' ∧ c ≠ '\r') :
    normalizeInput (TagInput.tokens L) =
      normalizeInput (TagInput.text (String.intercalate "\n" L)) ∧
    tag proc self (TagInput.tokens L) =
      tag proc self (TagInput.text (String.intercalate "\n" L)) :=
  ⟨rfl, rfl⟩

/-- Claim C4 witness at a concrete token list. -/
theorem C4_witness :
    (∀ t ∈ ["What", "is"], ∀ c ∈ t.data, c ≠ '\n' ∧ c ≠ '\r') ∧
    (normalizeInput (TagInput.tokens ["What", "is"]) =
        normalizeInput (TagInput.text (String.intercalate "\n" ["What", "is"])) ∧
      tag procSwallow instEnglish (TagInput.tokens ["What", "is"]) =
        tag procSwallow instEnglish
          (TagInput.text (String.intercalate "\n" ["What", "is"]))) :=
  ⟨by decide,
    C4_list_join_equivalence ["What", "is"] procSwallow instEnglish (by decide)⟩

/-- Claim C5: the decoder of the source (strip then split on tab) yields, for
every line, exactly the field sequence described by the spec (trim the
trailing line terminator, trim surrounding whitespace, split on the tab
character, keep however many fields result); and every successful tag call
yields exactly these field sequences, one per output line. -/
theorem C5_decoder_matches_spec :
    (∀ line : String, decodeLine line = specDecodeLine line) ∧
    ∀ (proc : List String → String → ProcResult) (self : TreeTagger)
      (inp : TagInput) (bin : String),
      self._treetagger_bin = some bin →
      (proc (argvOf bin self._abbr_list) (normalizeInput inp)).returncode = 0 →
      tag proc self inp = TagResult.ok
        ((pyFileLines (proc (argvOf bin self._abbr_list) (normalizeInput inp)).stdout).map
          specDecodeLine) := by
  have hfun : decodeLine = specDecodeLine := funext decodeLine_eq_specDecodeLine
  refine ⟨decodeLine_eq_specDecodeLine, ?_⟩
  intro proc self inp bin hbin hrc
  simp only [tag, hbin]
  rw [if_neg (not_not_intro hrc), hfun]

/-- Claim C5 witness at a concrete line and a concrete successful process. -/
theorem C5_witness :
    decodeLine "What\tWP\tWhat\n" = specDecodeLine "What\tWP\tWhat\n" ∧
    instEnglish._treetagger_bin = some "tree-tagger-english" ∧
    (procSwallow (argvOf "tree-tagger-english" instEnglish._abbr_list)
      (normalizeInput (TagInput.text "What"))).returncode = 0 ∧
    tag procSwallow instEnglish (TagInput.text "What") = TagResult.ok
      ((pyFileLines (procSwallow (argvOf "tree-tagger-english" instEnglish._abbr_list)
        (normalizeInput (TagInput.text "What"))).stdout).map specDecodeLine) :=
  ⟨C5_decoder_matches_spec.1 "What\tWP\tWhat\n", rfl, rfl,
    C5_decoder_matches_spec.2 procSwallow instEnglish (TagInput.text "What")
      "tree-tagger-english" rfl rfl⟩

/-- Claim C6: the language enumeration is exactly the fixed sixteen-element
list; constructing a TreeTagger with a language outside it raises LookupError
(no instance is produced), and for every language inside it construction does
not raise this error. -/
theorem C6_language_validation
    (platform : Platform) (find_binary : String → Option String)
    (language : String) (abbreviation_list : Option String) :
    _treetagger_languages =
      ["bulgarian", "dutch", "english", "estonian", "finnish", "french",
       "galician", "german", "italian", "polish", "portuguese",
       "portuguese-finegrained", "russian", "slovak", "slovak2", "spanish"] ∧
    (language ∉ _treetagger_languages →
      TreeTagger.init platform find_binary language abbreviation_list =
        Except.error "Language not in language list!") ∧
    (language ∈ _treetagger_languages →
      ∃ inst, TreeTagger.init platform find_binary language abbreviation_list =
        Except.ok inst) := by
  refine ⟨rfl, ?_, ?_⟩
  · intro h
    unfold TreeTagger.init
    rw [if_neg h]
  · intro h
    unfold TreeTagger.init
    rw [if_pos h]
    cases hfb : find_binary (binName platform language) with
    | none => exact ⟨_, rfl⟩
    | some path => exact ⟨_, rfl⟩

/-- Claim C6 witness: an unsupported language fails construction and a
supported one does not. -/
theorem C6_witness :
    ("klingon" ∉ _treetagger_languages ∧
      TreeTagger.init Platform.other (fun _ => none) "klingon" none =
        Except.error "Language not in language list!") ∧
    ("english" ∈ _treetagger_languages ∧
      ∃ inst, TreeTagger.init Platform.other (fun _ => none) "english" none =
        Except.ok inst) :=
  ⟨⟨by decide,
      (C6_language_validation Platform.other (fun _ => none) "klingon" none).2.1
        (by decide)⟩,
    ⟨by decide,
      (C6_language_validation Platform.other (fun _ => none) "english" none).2.2
        (by decide)⟩⟩

/-- Claim C7: when the binary locator fails for a supported language,
construction does not raise: it returns an instance after printing a warning;
the binary attribute of that instance is never set, and every subsequent tag
call on it fails (with an AttributeError), so the missing binary is only
detectable at the first tag call. -/
theorem C7_locator_failure_is_lenient
    (platform : Platform) (find_binary : String → Option String)
    (language : String) (abbreviation_list : Option String)
    (hlang : language ∈ _treetagger_languages)
    (hfb : find_binary (binName platform language) = none) :
    ∃ inst, TreeTagger.init platform find_binary language abbreviation_list =
        Except.ok inst ∧
      inst.warned = true ∧
      inst._treetagger_bin = none ∧
      ∀ (proc : List String → String → ProcResult) (inp : TagInput),
        tag proc inst inp = TagResult.attrError := by
  refine ⟨{ _abbr_list := abbreviation_list, _treetagger_bin := none,
            warned := true }, ?_, rfl, rfl, ?_⟩
  · unfold TreeTagger.init
    rw [if_pos hlang, hfb]
  · intro proc inp
    rfl

/-- Claim C7 witness: a locator that always fails, on English. -/
theorem C7_witness :
    "english" ∈ _treetagger_languages ∧
    (fun _ : String => (none : Option String)) (binName Platform.other "english") = none ∧
    ∃ inst, TreeTagger.init Platform.other (fun _ => none) "english" none =
        Except.ok inst ∧
      inst.warned = true ∧
      inst._treetagger_bin = none ∧
      ∀ (proc : List String → String → ProcResult) (inp : TagInput),
        tag proc inst inp = TagResult.attrError :=
  ⟨by decide, rfl,
    C7_locator_failure_is_lenient Platform.other (fun _ => none) "english" none
      (by decide) rfl⟩

/-- Claim C8: the argument vector is the executable path alone when no
abbreviation-list path was configured and exactly the path followed by -a and
that path when one was; and a tag call consults the external process at no
other argument vector and payload: two processes that agree on that single
point give identical tag results. -/
theorem C8_argument_vector :
    (∀ bin, argvOf bin none = [bin]) ∧
    (∀ bin a, argvOf bin (some a) = [bin, "-a", a]) ∧
    ∀ (proc1 proc2 : List String → String → ProcResult) (self : TreeTagger)
      (inp : TagInput) (bin : String),
      self._treetagger_bin = some bin →
      proc1 (argvOf bin self._abbr_list) (normalizeInput inp) =
        proc2 (argvOf bin self._abbr_list) (normalizeInput inp) →
      tag proc1 self inp = tag proc2 self inp := by
  refine ⟨fun _ => rfl, fun _ _ => rfl, ?_⟩
  intro proc1 proc2 self inp bin hbin hagree
  simp only [tag, hbin]
  rw [hagree]

/-- Claim C8 witness: two processes agreeing only on the one consulted
argument vector and payload give the same tag result. -/
theorem C8_witness :
    instEnglish._treetagger_bin = some "tree-tagger-english" ∧
    procSwallow (argvOf "tree-tagger-english" instEnglish._abbr_list)
        (normalizeInput (TagInput.text "What")) =
      procAgree (argvOf "tree-tagger-english" instEnglish._abbr_list)
        (normalizeInput (TagInput.text "What")) ∧
    tag procSwallow instEnglish (TagInput.text "What") =
      tag procAgree instEnglish (TagInput.text "What") :=
  ⟨rfl, by decide,
    C8_argument_vector.2.2 procSwallow procAgree instEnglish (TagInput.text "What")
      "tree-tagger-english" rfl (by decide)⟩

/-- Claim C9: with the external tool modelled as a deterministic function,
tag is a pure function of that tool, the immutable configuration fields of
the instance and the input, and tag leaves the instance unchanged; hence the
result depends on nothing else, and two calls with identical input on the
same instance yield identical ordered record sequences. -/
theorem C9_deterministic_pipeline
    (proc : List String → String → ProcResult) (self1 self2 : TreeTagger)
    (inp : TagInput)
    (hbin : self1._treetagger_bin = self2._treetagger_bin)
    (habbr : self1._abbr_list = self2._abbr_list) :
    tag proc self1 inp = tag proc self2 inp := by
  simp only [tag, hbin, habbr]

/-- Claim C9 witness: two instances with the same configuration. -/
theorem C9_witness :
    instEnglish._treetagger_bin =
      (TreeTagger.mk none (some "tree-tagger-english") true)._treetagger_bin ∧
    instEnglish._abbr_list =
      (TreeTagger.mk none (some "tree-tagger-english") true)._abbr_list ∧
    tag procSwallow instEnglish (TagInput.text "What") =
      tag procSwallow (TreeTagger.mk none (some "tree-tagger-english") true)
        (TagInput.text "What") :=
  ⟨rfl, rfl,
    C9_deterministic_pipeline procSwallow instEnglish
      (TreeTagger.mk none (some "tree-tagger-english") true)
      (TagInput.text "What") rfl rfl⟩

/-- Claim C10: every record yielded by tag is a non-empty field sequence,
because splitting on the tab character always produces at least one field;
in particular a line that is blank after whitespace trimming yields the
one-element record holding a single empty string, rather than being skipped
or yielding an empty record. -/
theorem C10_records_nonempty :
    (∀ (proc : List String → String → ProcResult) (self : TreeTagger)
       (inp : TagInput) (recs : List (List String)),
        tag proc self inp = TagResult.ok recs → ∀ r ∈ recs, r ≠ []) ∧
    ∀ line : String, stripList line.data = [] → decodeLine line = [""] := by
  constructor
  · intro proc self inp recs htag r hr
    cases hbin : self._treetagger_bin with
    | none =>
      simp only [tag, hbin] at htag
      exact TagResult.noConfusion htag
    | some bin =>
      simp only [tag, hbin] at htag
      by_cases hrc :
          (proc (argvOf bin self._abbr_list) (normalizeInput inp)).returncode ≠ 0
      · rw [if_pos hrc] at htag
        exact TagResult.noConfusion htag
      · rw [if_neg hrc] at htag
        have hrecs := (TagResult.ok.injEq _ _).mp htag
        rw [← hrecs] at hr
        obtain ⟨l, _, hl⟩ := List.mem_map.mp hr
        rw [← hl]
        exact decodeLine_ne_nil l
  · intro line hblank
    unfold decodeLine
    rw [hblank]
    rfl

/-- Claim C10 witness: a run yielding a blank-line record, and the blank-line
decode. -/
theorem C10_witness :
    (tag procBlankLine instEnglish (TagInput.text "x") = TagResult.ok [[""]] ∧
      ∀ r ∈ ([[""]] : List (List String)), r ≠ []) ∧
    (stripList "\n".data = [] ∧ decodeLine "\n" = [""]) :=
  ⟨⟨by decide,
      C10_records_nonempty.1 procBlankLine instEnglish (TagInput.text "x") [[""]]
        (by decide)⟩,
    ⟨by decide, C10_records_nonempty.2 "\n" (by decide)⟩⟩

end TreeTaggerSpec
